import Mathlib

/-!
Verification of the `newrelic_synthetics.Monitors` client
(src/newrelic_synthetics/monitors.py), a thin binding over the NewRelic
Synthetics monitors REST API.

The embedding below translates the Python source into Lean.  Python values
carried in JSON payloads are kept abstract (a type parameter `α`), since the
client treats them as opaque pass-through data.  Python dictionaries are
association lists in insertion order, with item assignment replacing the value
of an existing key in place and appending a fresh key at the end, exactly as
CPython dictionaries behave.

The base class `Synthetics` (imported from `.base`, not among the sources) is
modelled from the spec: the transport primitives `_get`, `_post`, `_put` and
`_delete` appear as abstract function parameters, the raw response's `ok` flag
and `build_param_string` are definitions whose doc comments start with
`Modelled from the spec:`.
-/

namespace NewRelicSynthetics

variable {α β γ ε : Type}

/-- The raw HTTP response handed back by the base client when it is called with
`get_raw_response=True`: a numeric status code, the response headers and a
body. -/
structure HttpResponse (β : Type) where
  status : Nat
  headers : List (String × String)
  body : β

/-- Modelled from the spec: the `ok` flag of the raw response returned by the
base client (class `Synthetics` of `.base`, which is not among the sources).
Per the spec, write operations succeed exactly when "the transport reports a
successful (2xx) status", so `ok` holds exactly on the 2xx codes. -/
def HttpResponse.ok (r : HttpResponse β) : Bool :=
  decide (200 ≤ r.status) && decide (r.status < 300)

/-- Python dictionary lookup `d[k]`, as an `Option`: the value at the first
matching key, `none` modelling the `KeyError` raised when the key is absent. -/
def dictGet (d : List (String × α)) (k : String) : Option α :=
  (d.find? (fun p => p.1 == k)).map (fun p => p.2)

/-- Python dictionary item assignment `d[k] = v`: replace the value in place
when the key is present, append the new pair at the end otherwise. -/
def dictInsert (d : List (String × α)) (k : String) (v : α) :
    List (String × α) :=
  if d.any (fun p => p.1 == k) then
    d.map (fun p => if p.1 == k then (k, v) else p)
  else
    d ++ [(k, v)]

/-- Python `d.update(**kwargs)`: assign each keyword pair into `d`, in keyword
order. -/
def dictUpdate (d kwargs : List (String × α)) : List (String × α) :=
  kwargs.foldl (fun acc p => dictInsert acc p.1 p.2) d

/-- Modelled from the spec: the joining step of the base client's
`build_param_string`, producing an `&`-separated query string. -/
def joinParams : List String → String
  | [] => ""
  | [s] => s
  | s :: rest => s ++ "&" ++ joinParams rest

/-- Modelled from the spec: the base client's `build_param_string` joins the
filters that are present into a query string and drops the absent (`None`)
ones, so that `list()` "omits the parameter entirely". -/
def build_param_string (params : List (Option String)) : String :=
  joinParams (params.filterMap id)

/-- Python truthiness of the optional integer `page` argument as tested by
`'page={0}'.format(page) if page else None`: `None` and `0` are falsy, every
other integer is truthy. -/
def truthyPage : Option Int → Bool
  | none => false
  | some n => n != 0

/-- Python string formatting of the page argument, `'{0}'.format(page)`. -/
def formatPage : Option Int → String
  | none => "None"
  | some n => toString n

/-- The index (from the front) of the last occurrence of a character in a
list, when there is one. -/
def lastIdxOf (c : Char) : List Char → Option Nat
  | [] => none
  | a :: as =>
    match lastIdxOf c as with
    | some i => some (i + 1)
    | none => if a = c then some 0 else none

/-- Python `s.rsplit(sep, 1)`: split at the last occurrence of `sep`, giving
the parts before and after it; the whole string alone when `sep` does not
occur. -/
def pyRsplit1 (sep : Char) (s : String) : List String :=
  match lastIdxOf sep s.toList with
  | none => [s]
  | some i => [String.mk (s.toList.take i), String.mk (s.toList.drop (i + 1))]

namespace Monitors

/-- The payload assembled by `Monitors.create` (monitors.py lines 117-124):
the dictionary of the five required fields, then `data.update(**kwargs)`. -/
def createData (name type frequency locations status : α)
    (kwargs : List (String × α)) : List (String × α) :=
  dictUpdate
    [("name", name), ("type", type), ("frequency", frequency),
     ("locations", locations), ("status", status)] kwargs

/-- The payload assembled by `Monitors.update` (monitors.py lines 166-173):
the dictionary of the five required fields, then `data.update(**kwargs)`. -/
def updateData (name type frequency locations status : α)
    (kwargs : List (String × α)) : List (String × α) :=
  dictUpdate
    [("name", name), ("type", type), ("frequency", frequency),
     ("locations", locations), ("status", status)] kwargs

/-- The body assembled by `Monitors.update_script` (monitors.py lines
207-211): `{'scriptText': scriptText}`, then the item assignment
`data['scriptLocations'] = scriptLocations` when that argument is not
`None`. -/
def updateScriptData (scriptText : α) (scriptLocations : Option α) :
    List (String × α) :=
  let data := [("scriptText", scriptText)]
  match scriptLocations with
  | none => data
  | some sl => dictInsert data "scriptLocations" sl

/-- `Monitors.list(page=None)`: build the optional `page=<n>` filter (the
Python conditional expression tests `page` for truthiness) and issue a GET to
the monitors collection with the built parameter string, returning the
transport's outcome unmodified.  `get` abstracts the base client's `_get`,
taking the url, the headers and the optional parameter string. -/
def list (URL : String) (hs : List (String × String))
    (get : String → List (String × String) → Option String → Except ε β)
    (page : Option Int) : Except ε β :=
  let filters : List (Option String) :=
    [if truthyPage page then some ("page=" ++ formatPage page) else none]
  get (URL ++ "monitors") hs (some (build_param_string filters))

/-- `Monitors.show(id)` (named `show_` because `show` is a Lean keyword):
issue a GET to the single-resource path, returning the transport's outcome
unmodified. -/
def show_ (URL : String) (hs : List (String × String))
    (get : String → List (String × String) → Option String → Except ε β)
    (id : String) : Except ε β :=
  get (URL ++ "monitors/" ++ id) hs none

/-- `Monitors.show_locations()`: issue a GET to the locations endpoint,
returning the transport's outcome unmodified. -/
def show_locations (URL : String) (hs : List (String × String))
    (get : String → List (String × String) → Option String → Except ε β) :
    Except ε β :=
  get (URL ++ "locations") hs none

/-- `Monitors.create(name, type, frequency, locations, status, **kwargs)`:
assemble the payload, POST it (raw response), and return the final path
segment of the `Location` response header via `rsplit('/', 1)[-1]`.  The
result is an `Option`: `none` models the `KeyError` crash when the header is
absent.  `post` abstracts the base client's `_post` with
`get_raw_response=True`. -/
def create (URL : String) (hs : List (String × String))
    (post : String → List (String × String) → List (String × α) →
      HttpResponse β)
    (name type frequency locations status : α)
    (kwargs : List (String × α)) : Option String :=
  let data := createData name type frequency locations status kwargs
  let response := post (URL ++ "monitors") hs data
  (dictGet response.headers "Location").map
    (fun loc => (pyRsplit1 '/' loc).getLastD "")

/-- `Monitors.update(id, name, type, frequency, locations, status,
**kwargs)`: assemble the payload, PUT it to the specific resource path (raw
response), and return `True` when `response.ok` and `False` otherwise. -/
def update (URL : String) (hs : List (String × String))
    (put : String → List (String × String) → List (String × α) →
      HttpResponse β)
    (id : String) (name type frequency locations status : α)
    (kwargs : List (String × α)) : Bool :=
  let data := updateData name type frequency locations status kwargs
  let response := put (URL ++ "monitors/" ++ id) hs data
  if response.ok then true else false

/-- `Monitors.update_script(id, scriptText, scriptLocations=None)`: assemble
the script body, PUT it to the resource's `/script` sub-path (raw response),
and return `True` when `response.ok` and `False` otherwise. -/
def update_script (URL : String) (hs : List (String × String))
    (put : String → List (String × String) → List (String × α) →
      HttpResponse β)
    (id : String) (scriptText : α) (scriptLocations : Option α) : Bool :=
  let data := updateScriptData scriptText scriptLocations
  let response := put (URL ++ "monitors/" ++ id ++ "/script") hs data
  if response.ok then true else false

/-- `Monitors.delete(id)`: issue a DELETE to the resource path (raw response)
and return `True` when `response.ok` and `False` otherwise.  `del` abstracts
the base client's `_delete` with `get_raw_response=True`. -/
def delete (URL : String) (hs : List (String × String))
    (del : String → List (String × String) → HttpResponse β)
    (id : String) : Bool :=
  let response := del (URL ++ "monitors/" ++ id) hs
  if response.ok then true else false

end Monitors

/-! ### Lemmas about the Python dictionary operations -/

theorem dictGet_cons (p : String × α) (d : List (String × α)) (k : String) :
    dictGet (p :: d) k = if p.1 == k then some p.2 else dictGet d k := by
  by_cases h : (p.1 == k) = true
  · simp [dictGet, h]
  · simp [dictGet, h]

theorem dictGet_eq_none (d : List (String × α)) (k : String)
    (h : ∀ p ∈ d, p.1 ≠ k) : dictGet d k = none := by
  induction d with
  | nil => rfl
  | cons p d ih =>
    have hp : ¬ (p.1 == k) = true := by
      simpa using h p (List.mem_cons_self _ _)
    rw [dictGet_cons, if_neg hp]
    exact ih (fun q hq => h q (List.mem_cons_of_mem _ hq))

theorem dictGet_map_replace_self (d : List (String × α)) (k : String) (v : α)
    (h : d.any (fun p => p.1 == k) = true) :
    dictGet (d.map (fun p => if p.1 == k then (k, v) else p)) k = some v := by
  induction d with
  | nil => simp at h
  | cons p d ih =>
    simp only [List.any_cons, Bool.or_eq_true] at h
    by_cases hp : (p.1 == k) = true
    · simp only [List.map_cons, if_pos hp]
      rw [dictGet_cons]
      simp
    · simp only [List.map_cons, if_neg hp]
      rw [dictGet_cons, if_neg hp]
      exact ih (h.resolve_left hp)

theorem dictGet_append_single_self (d : List (String × α)) (k : String)
    (v : α) (h : d.any (fun p => p.1 == k) = false) :
    dictGet (d ++ [(k, v)]) k = some v := by
  unfold dictGet
  rw [List.find?_append]
  have h1 : d.find? (fun p => p.1 == k) = none := by
    rw [List.find?_eq_none]
    intro x hx
    exact List.any_eq_false.mp h x hx
  rw [h1]
  simp

theorem dictGet_dictInsert_self (d : List (String × α)) (k : String) (v : α) :
    dictGet (dictInsert d k v) k = some v := by
  unfold dictInsert
  split
  next h => exact dictGet_map_replace_self d k v h
  next h => exact dictGet_append_single_self d k v (Bool.eq_false_iff.mpr h)

theorem dictGet_map_replace_ne (d : List (String × α)) (k k' : String) (v : α)
    (h : k ≠ k') :
    dictGet (d.map (fun p => if p.1 == k' then (k', v) else p)) k
      = dictGet d k := by
  induction d with
  | nil => rfl
  | cons p d ih =>
    by_cases hp : (p.1 == k') = true
    · have hpk' : p.1 = k' := by simpa using hp
      have h1 : ((k' : String) == k) = false := by
        simp only [beq_eq_false_iff_ne]
        exact Ne.symm h
      have h2 : (p.1 == k) = false := by
        simp only [beq_eq_false_iff_ne, hpk']
        exact Ne.symm h
      simp only [List.map_cons, if_pos hp]
      rw [dictGet_cons, dictGet_cons]
      simp only [Prod.fst, h1, h2, Bool.false_eq_true, if_false]
      exact ih
    · simp only [List.map_cons, if_neg hp]
      rw [dictGet_cons, dictGet_cons, ih]

theorem dictGet_append_single_ne (d : List (String × α)) (k k' : String)
    (v : α) (h : k ≠ k') :
    dictGet (d ++ [(k', v)]) k = dictGet d k := by
  unfold dictGet
  rw [List.find?_append]
  have h1 : List.find? (fun p => p.1 == k) [(k', v)] = none := by
    rw [List.find?_eq_none]
    intro x hx
    rw [List.mem_singleton] at hx
    subst hx
    simp only [beq_iff_eq]
    exact Ne.symm h
  rw [h1, Option.or_none]

theorem dictGet_dictInsert_ne (d : List (String × α)) (k k' : String) (v : α)
    (h : k ≠ k') : dictGet (dictInsert d k' v) k = dictGet d k := by
  unfold dictInsert
  split
  next => exact dictGet_map_replace_ne d k k' v h
  next => exact dictGet_append_single_ne d k k' v h

theorem dictGet_dictUpdate (d kwargs : List (String × α))
    (hnd : (kwargs.map Prod.fst).Nodup) (k : String) :
    dictGet (dictUpdate d kwargs) k
      = (dictGet kwargs k).or (dictGet d k) := by
  induction kwargs generalizing d with
  | nil => simp [dictUpdate, dictGet]
  | cons p kw ih =>
    simp only [List.map_cons, List.nodup_cons] at hnd
    obtain ⟨hp, hkw⟩ := hnd
    have step : dictUpdate d (p :: kw) = dictUpdate (dictInsert d p.1 p.2) kw :=
      rfl
    rw [step, ih _ hkw]
    by_cases hk : k = p.1
    · have h1 : dictGet kw p.1 = none := by
        apply dictGet_eq_none
        intro q hq hqk
        exact hp (hqk ▸ List.mem_map_of_mem Prod.fst hq)
      rw [hk, dictGet_dictInsert_self, h1, dictGet_cons]
      simp
    · have h2 : (p.1 == k) = false := by
        simp only [beq_eq_false_iff_ne]
        exact Ne.symm hk
      rw [dictGet_dictInsert_ne d k p.1 p.2 hk, dictGet_cons, if_neg (by simp [h2])]

/-- C10: for identical argument tuples, `create` and `update` assemble exactly
the same JSON payload dictionary — their payload-construction steps are the
same function of the shared inputs. -/
theorem create_update_payload_equal (name type frequency locations status : α)
    (kwargs : List (String × α)) :
    Monitors.createData name type frequency locations status kwargs
      = Monitors.updateData name type frequency locations status kwargs := rfl

/-- C3: the payload sent by `create` and by `update` is the dictionary of the
five required fields overlaid with the extra keyword fields: looking up any
key finds the extra field's value when that key occurs among the keyword
arguments (so a colliding extra field wins), and the required field's value
otherwise. -/
theorem payload_overlay_kwargs_win (name type frequency locations status : α)
    (kwargs : List (String × α)) (hnd : (kwargs.map Prod.fst).Nodup)
    (k : String) :
    dictGet (Monitors.createData name type frequency locations status kwargs) k
        = (dictGet kwargs k).or
            (dictGet [("name", name), ("type", type), ("frequency", frequency),
              ("locations", locations), ("status", status)] k)
      ∧ dictGet (Monitors.updateData name type frequency locations status kwargs) k
        = (dictGet kwargs k).or
            (dictGet [("name", name), ("type", type), ("frequency", frequency),
              ("locations", locations), ("status", status)] k) :=
  ⟨dictGet_dictUpdate _ kwargs hnd k, dictGet_dictUpdate _ kwargs hnd k⟩

/-- Witness for C3: with `status = "ENABLED"` among the required fields and a
colliding keyword field `status = "MUTED"`, the overlay equation holds at the
key `"status"` (where the keyword value wins). -/
theorem payload_overlay_kwargs_win_witness :
    (([("status", "MUTED"), ("slaThreshold", "2.0")].map
        (Prod.fst (α := String) (β := String))).Nodup)
      ∧ (dictGet (Monitors.createData "m" "SIMPLE" "10" "AWS" "ENABLED"
            [("status", "MUTED"), ("slaThreshold", "2.0")]) "status"
          = (dictGet [("status", "MUTED"), ("slaThreshold", "2.0")] "status").or
              (dictGet [("name", "m"), ("type", "SIMPLE"), ("frequency", "10"),
                ("locations", "AWS"), ("status", "ENABLED")] "status")
        ∧ dictGet (Monitors.updateData "m" "SIMPLE" "10" "AWS" "ENABLED"
            [("status", "MUTED"), ("slaThreshold", "2.0")]) "status"
          = (dictGet [("status", "MUTED"), ("slaThreshold", "2.0")] "status").or
              (dictGet [("name", "m"), ("type", "SIMPLE"), ("frequency", "10"),
                ("locations", "AWS"), ("status", "ENABLED")] "status")) :=
  ⟨by decide,
    payload_overlay_kwargs_win "m" "SIMPLE" "10" "AWS" "ENABLED"
      [("status", "MUTED"), ("slaThreshold", "2.0")] (by decide) "status"⟩

/-! ### Lemmas about `rsplit('/', 1)[-1]` -/

theorem lastIdxOf_eq_none (c : Char) (ys : List Char) (h : c ∉ ys) :
    lastIdxOf c ys = none := by
  induction ys with
  | nil => rfl
  | cons a as ih =>
    simp only [List.mem_cons, not_or] at h
    unfold lastIdxOf
    rw [ih h.2]
    exact if_neg (Ne.symm h.1)

theorem lastIdxOf_append (c : Char) (xs ys : List Char) (h : c ∉ ys) :
    lastIdxOf c (xs ++ c :: ys) = some xs.length := by
  induction xs with
  | nil =>
    simp only [List.nil_append]
    unfold lastIdxOf
    rw [lastIdxOf_eq_none c ys h]
    simp
  | cons a as ih =>
    simp only [List.cons_append]
    unfold lastIdxOf
    rw [ih]
    simp [List.length_cons]

theorem pyRsplit1_getLastD (pre seg : String) (h : '/' ∉ seg.toList) :
    (pyRsplit1 '/' (pre ++ "/" ++ seg)).getLastD "" = seg := by
  have hl : (pre ++ "/" ++ seg).toList = pre.toList ++ '/' :: seg.toList := by
    show (pre ++ "/" ++ seg).data = pre.data ++ '/' :: seg.data
    simp [String.data_append]
  have hdrop : (pre.toList ++ '/' :: seg.toList).drop (pre.toList.length + 1)
      = seg.toList := by
    have e1 : pre.toList ++ '/' :: seg.toList
        = (pre.toList ++ ['/']) ++ seg.toList := by simp
    have e2 : pre.toList.length + 1 = (pre.toList ++ ['/']).length := by simp
    rw [e1, e2, List.drop_left]
  unfold pyRsplit1
  rw [hl, lastIdxOf_append '/' pre.toList seg.toList h]
  show String.mk ((pre.toList ++ '/' :: seg.toList).drop (pre.toList.length + 1))
    = seg
  rw [hdrop]
  exact String.ext rfl

/-! ### The claims -/

/-- C1: for every response to the PUT issued by `update`, `update` returns
`true` when the HTTP status is any 2xx code and `false` for any non-2xx
status, regardless of the response body (and headers). -/
theorem update_true_iff_2xx (URL : String) (hs : List (String × String))
    (resp : HttpResponse β) (id : String)
    (name type frequency locations status : α)
    (kwargs : List (String × α)) :
    Monitors.update URL hs (fun _ _ _ => resp) id
        name type frequency locations status kwargs = true
      ↔ (200 ≤ resp.status ∧ resp.status < 300) := by
  simp [Monitors.update, HttpResponse.ok]

/-- C2: when the `Location` header of the response to the POST issued by
`create` is present with value `pre ++ "/" ++ seg` (with `seg` the trailing
path segment, containing no further slash), `create` returns exactly
`seg`. -/
theorem create_returns_trailing_segment (URL : String)
    (hs : List (String × String)) (resp : HttpResponse β)
    (name type frequency locations status : α) (kwargs : List (String × α))
    (pre seg : String) (hseg : '/' ∉ seg.toList)
    (hloc : dictGet resp.headers "Location" = some (pre ++ "/" ++ seg)) :
    Monitors.create URL hs (fun _ _ _ => resp)
        name type frequency locations status kwargs = some seg := by
  show Option.map (fun loc => (pyRsplit1 '/' loc).getLastD "")
    (dictGet resp.headers "Location") = some seg
  rw [hloc]
  simp only [Option.map_some']
  rw [pyRsplit1_getLastD pre seg hseg]

/-- Witness for C2: a response whose `Location` header is
`.../monitors/abc-123` makes `create` return `"abc-123"`. -/
theorem create_returns_trailing_segment_witness :
    (('/' ∉ "abc-123".toList)
        ∧ dictGet (HttpResponse.headers
            { status := 201,
              headers :=
                [("Location",
                  "https://synthetics.newrelic.com/synthetics/api/v1/monitors/abc-123")],
              body := () }) "Location"
          = some ("https://synthetics.newrelic.com/synthetics/api/v1/monitors"
              ++ "/" ++ "abc-123"))
      ∧ Monitors.create "https://synthetics.newrelic.com/synthetics/api/v1/" []
          (fun _ _ _ =>
            ({ status := 201,
               headers :=
                 [("Location",
                   "https://synthetics.newrelic.com/synthetics/api/v1/monitors/abc-123")],
               body := () } : HttpResponse Unit))
          "monitor" "SIMPLE" "10" "AWS_US_WEST_1" "ENABLED"
          ([] : List (String × String)) = some "abc-123" :=
  ⟨⟨by decide, by rfl⟩,
    create_returns_trailing_segment _ _ _ _ _ _ _ _ _
      "https://synthetics.newrelic.com/synthetics/api/v1/monitors" "abc-123"
      (by decide) (by rfl)⟩

/-- C8: when the response to the POST issued by `create` has no `Location`
header, `create` does not return an ID (the model yields `none`, the
`KeyError` crash of the Python code). -/
theorem create_missing_location_fails (URL : String)
    (hs : List (String × String)) (resp : HttpResponse β)
    (name type frequency locations status : α) (kwargs : List (String × α))
    (hloc : dictGet resp.headers "Location" = none) :
    Monitors.create URL hs (fun _ _ _ => resp)
        name type frequency locations status kwargs = none := by
  show Option.map (fun loc => (pyRsplit1 '/' loc).getLastD "")
    (dictGet resp.headers "Location") = none
  rw [hloc]
  rfl

/-- Witness for C8: a `Location`-less 201 response makes `create` fail. -/
theorem create_missing_location_fails_witness :
    (dictGet (HttpResponse.headers
        { status := 201, headers := [("Content-Type", "application/json")],
          body := () }) "Location" = none)
      ∧ Monitors.create "https://synthetics.newrelic.com/synthetics/api/v1/" []
          (fun _ _ _ =>
            ({ status := 201,
               headers := [("Content-Type", "application/json")],
               body := () } : HttpResponse Unit))
          "monitor" "SIMPLE" "10" "AWS_US_WEST_1" "ENABLED"
          ([] : List (String × String)) = none :=
  ⟨by rfl,
    create_missing_location_fails _ _ _ _ _ _ _ _ _ (by rfl)⟩

/-- C4: for every valid (positive) `page`, `list(page)` issues its GET with a
query string that is exactly `page=<page>`, and `list()` without a page
argument issues it with an empty query string, omitting the parameter
entirely. -/
theorem list_page_query_string (URL : String) (hs : List (String × String))
    (get : String → List (String × String) → Option String → Except ε β)
    (p : Int) (hp : 0 < p) :
    Monitors.list URL hs get (some p)
        = get (URL ++ "monitors") hs (some ("page=" ++ toString p))
      ∧ Monitors.list URL hs get none
        = get (URL ++ "monitors") hs (some "") := by
  constructor
  · have hne : truthyPage (some p) = true := by
      show (p != 0) = true
      simp only [bne_iff_ne, ne_eq]
      exact hp.ne'
    unfold Monitors.list
    rw [hne]
    rfl
  · rfl

/-- Witness for C4: `list(page=2)` carries the query string `page=2` and
`list()` carries the empty query string. -/
theorem list_page_query_string_witness :
    ((0 : Int) < 2)
      ∧ (Monitors.list "https://synthetics.newrelic.com/synthetics/api/v1/" []
            (fun u h ps =>
              (Except.ok (u, h, ps) :
                Except Unit (String × List (String × String) × Option String)))
            (some 2)
          = Except.ok
              ("https://synthetics.newrelic.com/synthetics/api/v1/monitors",
                [], some "page=2")
        ∧ Monitors.list "https://synthetics.newrelic.com/synthetics/api/v1/" []
            (fun u h ps =>
              (Except.ok (u, h, ps) :
                Except Unit (String × List (String × String) × Option String)))
            none
          = Except.ok
              ("https://synthetics.newrelic.com/synthetics/api/v1/monitors",
                [], some "")) :=
  ⟨by decide, list_page_query_string _ _ _ 2 (by decide)⟩

/-- C9: `list` called with `page = 0`, a falsy value, builds an empty query
string — the page parameter is omitted entirely and the call behaves exactly
as `list()` with no page argument, because the code tests `page` for
truthiness rather than for being `None`. -/
theorem list_page_zero_omits_param (URL : String) (hs : List (String × String))
    (get : String → List (String × String) → Option String → Except ε β) :
    Monitors.list URL hs get (some 0) = get (URL ++ "monitors") hs (some "")
      ∧ Monitors.list URL hs get (some 0) = Monitors.list URL hs get none :=
  ⟨rfl, rfl⟩

/-- C5: `update_script` without `scriptLocations` PUTs a body that is exactly
`{scriptText}`; with `scriptLocations` supplied, the body is `{scriptText}`
plus `scriptLocations` with the caller's value unchanged. -/
theorem update_script_body (URL : String) (hs : List (String × String))
    (put : String → List (String × String) → List (String × α) →
      HttpResponse β)
    (id : String) (scriptText sl : α) :
    Monitors.update_script URL hs put id scriptText none
        = (if (put (URL ++ "monitors/" ++ id ++ "/script") hs
              [("scriptText", scriptText)]).ok then true else false)
      ∧ Monitors.update_script URL hs put id scriptText (some sl)
        = (if (put (URL ++ "monitors/" ++ id ++ "/script") hs
              [("scriptText", scriptText), ("scriptLocations", sl)]).ok
            then true else false) := by
  constructor
  · rfl
  · have hany : (([("scriptText", scriptText)] : List (String × α)).any
        (fun p => p.1 == "scriptLocations")) = false := by
      simp only [List.any_cons, List.any_nil, Bool.or_false]
      decide
    have hd : Monitors.updateScriptData scriptText (some sl)
        = [("scriptText", scriptText), ("scriptLocations", sl)] := by
      show dictInsert [("scriptText", scriptText)] "scriptLocations" sl
        = [("scriptText", scriptText), ("scriptLocations", sl)]
      unfold dictInsert
      rw [if_neg (by rw [hany]; exact Bool.false_ne_true)]
      rfl
    simp only [Monitors.update_script, hd]

/-- C6: on a non-2xx response the write operations `update`, `update_script`
and `delete` return `false` rather than raising, while the read operations
`list`, `show` and `show_locations` return the transport's error signal
unmodified. -/
theorem write_false_read_propagate (URL : String) (hs : List (String × String))
    (resp : HttpResponse β) (id : String)
    (name type frequency locations status : α) (kwargs : List (String × α))
    (scriptText : α) (scriptLocations : Option α) (e : ε) (page : Option Int)
    (hbad : ¬(200 ≤ resp.status ∧ resp.status < 300)) :
    Monitors.update URL hs (fun _ _ _ => resp) id
        name type frequency locations status kwargs = false
      ∧ Monitors.update_script URL hs (fun _ _ _ => resp) id
          scriptText scriptLocations = false
      ∧ Monitors.delete URL hs (fun _ _ => resp) id = false
      ∧ Monitors.list URL hs (fun _ _ _ => (Except.error e : Except ε β)) page
          = Except.error e
      ∧ Monitors.show_ URL hs (fun _ _ _ => (Except.error e : Except ε β)) id
          = Except.error e
      ∧ Monitors.show_locations URL hs
          (fun _ _ _ => (Except.error e : Except ε β)) = Except.error e := by
  have hok : resp.ok = false := by
    unfold HttpResponse.ok
    rcases Nat.lt_or_ge resp.status 200 with h | h
    · simp [Nat.not_le.mpr h]
    · have h2 : ¬ resp.status < 300 := fun hlt => hbad ⟨h, hlt⟩
      simp [h2]
  refine ⟨?_, ?_, ?_, rfl, rfl, rfl⟩
  · simp [Monitors.update, hok]
  · simp [Monitors.update_script, hok]
  · simp [Monitors.delete, hok]

/-- Witness for C6: a 404 response makes the three write operations return
`false`, and an erroring transport makes the three read operations return the
error signal unmodified. -/
theorem write_false_read_propagate_witness :
    (¬(200 ≤ 404 ∧ 404 < 300))
      ∧ (Monitors.update "https://synthetics.newrelic.com/synthetics/api/v1/"
            []
            (fun _ _ _ =>
              ({ status := 404, headers := [], body := () } : HttpResponse Unit))
            "mid" "monitor" "SIMPLE" "10" "AWS_US_WEST_1" "ENABLED"
            ([] : List (String × String)) = false
        ∧ Monitors.update_script
            "https://synthetics.newrelic.com/synthetics/api/v1/" []
            (fun _ _ _ =>
              ({ status := 404, headers := [], body := () } : HttpResponse Unit))
            "mid" "c2NyaXB0" (none : Option String) = false
        ∧ Monitors.delete
            "https://synthetics.newrelic.com/synthetics/api/v1/" []
            (fun _ _ =>
              ({ status := 404, headers := [], body := () } : HttpResponse Unit))
            "mid" = false
        ∧ Monitors.list "https://synthetics.newrelic.com/synthetics/api/v1/" []
            (fun _ _ _ => (Except.error () : Except Unit Unit)) (some 1)
          = Except.error ()
        ∧ Monitors.show_
            "https://synthetics.newrelic.com/synthetics/api/v1/" []
            (fun _ _ _ => (Except.error () : Except Unit Unit)) "mid"
          = Except.error ()
        ∧ Monitors.show_locations
            "https://synthetics.newrelic.com/synthetics/api/v1/" []
            (fun _ _ _ => (Except.error () : Except Unit Unit))
          = Except.error ()) :=
  ⟨by decide,
    write_false_read_propagate _ _ _ _ _ _ _ _ _ _ _ _ _ _ (by decide)⟩

/-- C7: `show(id)` issues its GET and `delete(id)` issues its DELETE to the
URL `URL ++ "monitors/" ++ id`, whose path contains the literal `id` string
unaltered. -/
theorem show_delete_literal_id_path (URL : String)
    (hs : List (String × String))
    (get : String → List (String × String) → Option String → Except ε β)
    (del : String → List (String × String) → HttpResponse γ) (id : String) :
    Monitors.show_ URL hs get id = get (URL ++ "monitors/" ++ id) hs none
      ∧ Monitors.delete URL hs del id
        = (if (del (URL ++ "monitors/" ++ id) hs).ok then true else false)
      ∧ ∃ before after, URL ++ "monitors/" ++ id = before ++ id ++ after :=
  ⟨rfl, rfl, URL ++ "monitors/", "", by rw [String.append_empty]⟩

end NewRelicSynthetics
